import Mathlib

/-!
Verification of the turn-detection orchestration layer of the voice-agent
repository. The core source is the streaming `AudioRecorder` component
(src/unnamed/part_004, lines 1-530): a Deepgram Flux v2 turn-event state
machine with a silence watchdog, an eager-end confirmation timer, a
wait-intent classification gate, and a finalizer handoff. We embed the
event-handler logic as an explicit step function on a `Session` record and
settle the spec's claims about it as theorems.

Modelling conventions:

* React `useState` values and `useRef` cells that bear on the turn decision
  logic become fields of `Session`. Pure display state (audio level,
  `turnState` UI fields, `processingMessage`, `questionNumber`, `audioUrl`,
  `error` text) is omitted: the spec classes visualization and playback as
  side responsibilities outside the correctness contract, and none of the
  claims mentions them.
* The browser's single-threaded event loop is modelled by a step function
  `step : Session → Trigger → Option Session`. Each trigger is one of the
  discrete reactions in the source: a websocket message, a timer callback,
  the resolution of an in-flight fetch, or a user click. `none` means the
  trigger is not enabled in that state (the timer is not pending, the
  websocket is closed and so delivers no message events, and so on). A
  reaction runs to completion atomically, which matches the source: the
  synchronous prefix of each handler, together with any microtask
  continuations of already-resolved promises, runs before the next event.
* An `await` on a fetch suspends its handler; the suspension is modelled by
  recording the in-flight call in the state (`pendingEagerGate`,
  `pendingEndGate`, `isProcessing`) and resuming at a separate trigger.
* `setTimeout` handles: the source keeps at most one referenced eager-end
  timer (`eagerEndTimeoutRef`), but the `EagerEndOfTurn` case overwrites the
  ref with a new `setTimeout` WITHOUT first clearing a pending one (line
  361), so a previously pending timer stays scheduled yet can no longer be
  cleared. We model the referenced pending timer as `eagerEndTimeout` and
  such orphaned-but-scheduled timers as `eagerEndLeaked`. A timer that has
  already fired is dropped from the state: clearing a fired timer is a
  no-op, so this is observationally equivalent to the lingering ref in the
  source.
-/

namespace VoiceAgent

/-- Deepgram Flux v2 turn events (part_004, lines 10-16). -/
inductive TurnEventKind
  | update
  | startOfTurn
  | eagerEndOfTurn
  | turnResumed
  | endOfTurn
deriving DecidableEq, Repr

/-- Connection lifecycle states (part_004, lines 18-23). -/
inductive ConnectionState
  | disconnected
  | connecting
  | connected
  | processing
  | responding
deriving DecidableEq, Repr

/-- Configuration constant SILENCE_PROMPT_DELAY_MS (part_004, line 7):
short watchdog deadline, in milliseconds. -/
def SILENCE_PROMPT_DELAY_MS : Nat := 7000

/-- Configuration constant EXTENDED_SILENCE_DELAY_MS (part_004, line 8):
extended watchdog deadline used after a wait intent, in milliseconds. -/
def EXTENDED_SILENCE_DELAY_MS : Nat := 20000

/-- Delay of the eager-end confirmation timer (part_004, line 382), in
milliseconds. -/
def EAGER_END_CONFIRM_DELAY_MS : Nat := 800

/-- A primitive JSON value, as far as the wait-intent response shape needs:
the client tests `data.isWaitIntent === true`, so we only need to tell the
boolean `true` apart from every other value. -/
inductive JsonPrim
  | bool (b : Bool)
  | str (s : String)
  | num (n : Int)
  | null
deriving DecidableEq, Repr

/-- The parsed body of a wait-intent response: a JSON object whose
`isWaitIntent` field may be absent (`none`) or hold any primitive. -/
structure GateBody where
  isWaitIntent : Option JsonPrim
deriving DecidableEq, Repr

/-- Outcome of the `/api/check-wait-intent` fetch as seen by the client:
either the fetch rejected (network/transport failure, which the `catch` in
part_004 line 211 handles), or a response arrived with an `ok` flag, whose
body is `none` when `response.json()` threw (malformed body) and
`some b` when it parsed. -/
inductive FetchOutcome
  | failure
  | response (ok : Bool) (body : Option GateBody)
deriving DecidableEq, Repr

/-- Decision the client computes from a wait-intent fetch outcome
(part_004, lines 197-216): a thrown fetch or JSON parse is caught and
yields `false`; a non-ok response yields `false`; otherwise the decision is
`data.isWaitIntent === true`. -/
def gateDecision : FetchOutcome → Bool
  | .failure => false
  | .response false _ => false
  | .response true none => false
  | .response true (some b) =>
      match b.isWaitIntent with
      | some (.bool true) => true
      | _ => false

/-- Blankness test standing for the source's `!t.trim()` / `t.trim() === ""`:
the sources never use the trimmed value itself, only whether trimming leaves
the empty string, which holds exactly when every character is whitespace
(and in particular for the empty string). -/
def isBlank (t : String) : Bool :=
  t.toList.all Char.isWhitespace

/-- The wait-intent gate client checkWaitIntent (part_004, lines 191-219),
as a function of the in-flight flag `isCheckingWaitIntentRef`, the
transcript, and the fetch outcome. Returns the boolean decision and whether
a request was actually issued. The guard on line 193 rejects a blank
transcript or an overlapping call without issuing a request, resolving
immediately to `false`; otherwise the decision is `gateDecision` of the
outcome. The function is total: the caller always receives a boolean. -/
def checkWaitIntent (isChecking : Bool) (transcript : String)
    (r : FetchOutcome) : Bool × Bool :=
  if isBlank transcript ∨ isChecking then (false, false)
  else (gateDecision r, true)

/-- The per-session state: the `useState` values and `useRef` cells of
part_004 that bear on turn decisions, plus two histories (`gateCalls`,
`finalized`) recording the boundary calls that were actually issued, so
that invocation-counting claims can be stated. -/
structure Session where
  /-- connectionState (line 33). -/
  connectionState : ConnectionState
  /-- liveTranscript (line 42): the displayed live transcript. -/
  liveTranscript : String
  /-- isExtendedWait (line 55). -/
  isExtendedWait : Bool
  /-- isSpeaking (line 39). -/
  isSpeaking : Bool
  /-- isProcessingRef (line 65): a finalizer call is in flight. -/
  isProcessing : Bool
  /-- isCheckingWaitIntentRef (line 68): a gate call is in flight. -/
  isCheckingWaitIntent : Bool
  /-- eagerEndTimeoutRef (line 66): the pending eager-end confirmation
  timer currently referenced, carrying the transcript its callback
  captured. -/
  eagerEndTimeout : Option String
  /-- Pending eager-end timers whose ref was overwritten by a later
  `setTimeout` (line 361 stores a new handle without clearing the old):
  still scheduled, no longer clearable. -/
  eagerEndLeaked : List String
  /-- silenceTimeoutRef (line 67): the pending watchdog timer, carrying its
  deadline in milliseconds. -/
  silenceTimeout : Option Nat
  /-- websocketRef (line 58) is set and the transport open. -/
  websocket : Bool
  /-- processorRef (line 61): the script processor is connected. -/
  processor : Bool
  /-- audioContextRef (line 60): the audio context is open. -/
  audioContext : Bool
  /-- mediaStreamRef (line 59): the microphone stream is held. -/
  mediaStream : Bool
  /-- animationFrameRef (line 64): a visualization frame is scheduled. -/
  animationFrame : Bool
  /-- An in-flight gate fetch issued from the eager-end timer callback
  (line 367), carrying the transcript whose continuation awaits it. -/
  pendingEagerGate : Option String
  /-- An in-flight gate fetch issued from the EndOfTurn case (line 407),
  carrying the transcript whose `.then` continuation awaits it. -/
  pendingEndGate : Option String
  /-- History of transcripts for which a gate request was issued. -/
  gateCalls : List String
  /-- History of transcripts handed to the finalizer boundary call (the
  `/api/process-stream` fetch in processTranscript, line 126). -/
  finalized : List String
deriving DecidableEq, Repr

/-- cleanup (part_004, lines 71-114): cancels the animation frame and both
timers, disconnects the audio processor, closes the audio context, stops
the microphone tracks, closes the websocket (sending CloseStream first when
open), and resets the speaking and extended-wait flags. An in-flight gate
or finalizer fetch is NOT cancelled: the source has no way to abort them,
so their continuations still run when they resolve. Orphaned eager timers
(`eagerEndLeaked`) remain scheduled: only the referenced handle is
cleared. -/
def cleanup (s : Session) : Session :=
  { s with
    animationFrame := false
    eagerEndTimeout := none
    silenceTimeout := none
    processor := false
    audioContext := false
    mediaStream := false
    websocket := false
    isSpeaking := false
    isExtendedWait := false }

/-- resetSilenceTimer (part_004, lines 223-243): replaces any pending
watchdog timer with a fresh one at the short (7000 ms) or extended
(20000 ms) deadline. -/
def resetSilenceTimer (useExtendedTimeout : Bool) (s : Session) : Session :=
  { s with
    silenceTimeout :=
      some (if useExtendedTimeout then EXTENDED_SILENCE_DELAY_MS
            else SILENCE_PROMPT_DELAY_MS) }

/-- Entry of processTranscript (part_004, lines 117-130): the guard on line
119 returns without effect when the transcript is blank or a finalizer call
is already in flight; otherwise the in-flight flag is set, the state moves
to `processing`, and the finalizer boundary call (the
`/api/process-stream` fetch) is issued, recorded here in `finalized`. The
streamed response frames (lines 141-175) belong to the external finalizer
and update only display state; the `finally` on line 180 is the
`Trigger.finalizerCompletes` step. -/
def processTranscript (t : String) (s : Session) : Session :=
  if isBlank t ∨ s.isProcessing then s
  else
    { s with
      isProcessing := true
      connectionState := .processing
      finalized := s.finalized ++ [t] }

/-- The continuation both gate call sites run on the resolved wait-intent
decision (part_004, lines 369-380 and 408-419, which are identical): on
"wait", set the extended-wait flag, clear the displayed transcript, and
rearm the watchdog at the extended deadline; otherwise tear down, enter
`processing`, and hand the transcript to the finalizer. Note that neither
branch re-checks whether the turn was superseded while the call was
outstanding. -/
def gateContinuation (t : String) (isWaitIntent : Bool) (s : Session) :
    Session :=
  if isWaitIntent then
    resetSilenceTimer true { s with isExtendedWait := true, liveTranscript := "" }
  else
    processTranscript t { cleanup s with connectionState := .processing }

/-- Body of the eager-end confirmation timer callback (part_004, lines
361-382). At fire time it checks that the captured transcript is non-empty
and the websocket ref is still set (line 363) — this is the only
supersession check, and it happens BEFORE the gate call is awaited. It then
awaits checkWaitIntent: when that call's own guard rejects (blank after
trim, or another gate call in flight) the awaited value is immediately
`false` and the continuation runs within the same reaction; otherwise the
gate fetch goes out and the continuation runs at
`Trigger.eagerGateResolves`. -/
def fireEagerTimer (t : String) (s : Session) : Session :=
  if t ≠ "" ∧ s.websocket then
    if isBlank t ∨ s.isCheckingWaitIntent then
      gateContinuation t false s
    else
      { s with
        isCheckingWaitIntent := true
        pendingEagerGate := some t
        gateCalls := s.gateCalls ++ [t] }
  else s

/-- The TurnInfo branch of ws.onmessage (part_004, lines 311-424): update
the displayed transcript when the event carries one (line 333), then
dispatch on the event kind (lines 338-423). The EndOfTurn case calls
checkWaitIntent and attaches the continuation with `.then`; when the
guard inside checkWaitIntent resolves immediately to `false`, the
continuation runs as a microtask within the same reaction. -/
def handleTurnInfo (ev : TurnEventKind) (t : String) (s : Session) :
    Session :=
  let s := if t ≠ "" then { s with liveTranscript := t } else s
  match ev with
  | .startOfTurn =>
      { resetSilenceTimer false { s with isSpeaking := true, isExtendedWait := false } with
        eagerEndTimeout := none }
  | .update =>
      if t ≠ "" then resetSilenceTimer false s else s
  | .eagerEndOfTurn =>
      { s with
        eagerEndTimeout := some t
        eagerEndLeaked := s.eagerEndLeaked ++ s.eagerEndTimeout.toList }
  | .turnResumed =>
      { resetSilenceTimer false s with eagerEndTimeout := none, isSpeaking := true }
  | .endOfTurn =>
      let s := { s with eagerEndTimeout := none }
      if t ≠ "" then
        if isBlank t ∨ s.isCheckingWaitIntent then
          gateContinuation t false s
        else
          { s with
            isCheckingWaitIntent := true
            pendingEndGate := some t
            gateCalls := s.gateCalls ++ [t] }
      else s

/-- The discrete triggers the session reacts to: inbound websocket
messages, timer callbacks, resolutions of in-flight fetches, and the user's
stop click. -/
inductive Trigger
  | turnInfo (ev : TurnEventKind) (transcript : String)
  | wsFatal (description : String)
  | eagerTimerFires
  | leakedEagerTimerFires (i : Nat)
  | silenceTimerFires
  | eagerGateResolves (r : FetchOutcome)
  | endGateResolves (r : FetchOutcome)
  | finalizerCompletes
  | stopClicked
deriving DecidableEq, Repr

/-- One reaction of the session to a trigger; `none` when the trigger is
not enabled in this state. Message triggers require the websocket to be
open (after `cleanup` nulls and closes it, no further message events are
delivered). Timer triggers require the timer to be pending. Resolution
triggers require the corresponding fetch to be in flight.

Per-trigger sources in part_004: `turnInfo` is lines 311-424; `wsFatal` is
the fatal Error message, lines 427-432; `silenceTimerFires` is the watchdog
callback, lines 233-240; `eagerTimerFires` fires the referenced eager
timer; `eagerGateResolves`/`endGateResolves` resume lines 369-380 and
408-419 with `gateDecision` of the fetch outcome, after the `finally` on
line 215 clears the in-flight flag; `finalizerCompletes` is the `finally`
on lines 180-184 (its conditional disconnect compares a render-captured
connectionState value, which on every trace reaching it here differs from
"processing", so only the flag reset has an effect); `stopClicked` is
stopListening, lines 513-522, reachable from the button only while
listening. -/
def step (s : Session) : Trigger → Option Session
  | .turnInfo ev t =>
      if s.websocket then some (handleTurnInfo ev t s) else none
  | .wsFatal _ =>
      if s.websocket then
        some { cleanup s with connectionState := .disconnected }
      else none
  | .eagerTimerFires =>
      match s.eagerEndTimeout with
      | some t => some (fireEagerTimer t { s with eagerEndTimeout := none })
      | none => none
  | .leakedEagerTimerFires i =>
      match s.eagerEndLeaked[i]? with
      | some t =>
          some (fireEagerTimer t { s with eagerEndLeaked := s.eagerEndLeaked.eraseIdx i })
      | none => none
  | .silenceTimerFires =>
      match s.silenceTimeout with
      | some _ =>
          some { cleanup s with connectionState := .disconnected, isExtendedWait := false }
      | none => none
  | .eagerGateResolves r =>
      match s.pendingEagerGate with
      | some t =>
          some (gateContinuation t (gateDecision r)
            { s with isCheckingWaitIntent := false, pendingEagerGate := none })
      | none => none
  | .endGateResolves r =>
      match s.pendingEndGate with
      | some t =>
          some (gateContinuation t (gateDecision r)
            { s with isCheckingWaitIntent := false, pendingEndGate := none })
      | none => none
  | .finalizerCompletes =>
      if s.isProcessing then some { s with isProcessing := false } else none
  | .stopClicked =>
      if s.connectionState = .connected then
        some
          (if isBlank s.liveTranscript then
            { cleanup s with connectionState := .disconnected }
          else processTranscript s.liveTranscript (cleanup s))
      else none

/-- Run a sequence of triggers; triggers that are not enabled are skipped
(they cannot occur in that state). -/
def runTrace (s : Session) (tr : List Trigger) : Session :=
  tr.foldl (fun s τ => (step s τ).getD s) s

/-- The session right after a successful start: ws.onopen (part_004, lines
292-298) has set the state to `connected`, started audio processing
(processor, audio context, analyser, animation frame), and armed the
watchdog at the short deadline; startListening (lines 248-254) reset the
transcript and flags beforehand. This is the start of a listening phase. -/
def connectedSession : Session where
  connectionState := .connected
  liveTranscript := ""
  isExtendedWait := false
  isSpeaking := false
  isProcessing := false
  isCheckingWaitIntent := false
  eagerEndTimeout := none
  eagerEndLeaked := []
  silenceTimeout := some SILENCE_PROMPT_DELAY_MS
  websocket := true
  processor := true
  audioContext := true
  mediaStream := true
  animationFrame := true
  pendingEagerGate := none
  pendingEndGate := none
  gateCalls := []
  finalized := []

/-- The externally visible resource actions cleanup performs, in the order
its body can perform them (part_004, lines 71-114). -/
inductive CleanupAction
  | cancelAnimationFrame
  | cancelEagerTimer
  | cancelSilenceTimer
  | disconnectProcessor
  | closeAudioContext
  | stopMediaTracks
  | closeWebSocket
deriving DecidableEq, Repr, BEq

/-- Whether cleanup's guard for each action holds in state `s`: each block
of cleanup runs only when its ref is set (part_004, lines 72, 77, 82, 87,
92, 97, 102). -/
def cleanupEnabled (s : Session) : CleanupAction → Bool
  | .cancelAnimationFrame => s.animationFrame
  | .cancelEagerTimer => s.eagerEndTimeout.isSome
  | .cancelSilenceTimer => s.silenceTimeout.isSome
  | .disconnectProcessor => s.processor
  | .closeAudioContext => s.audioContext
  | .stopMediaTracks => s.mediaStream
  | .closeWebSocket => s.websocket

/-- The textual order of cleanup's blocks in the source (part_004, lines
72-109): animation frame, eager timer, silence timer, audio processor,
audio context, microphone tracks, and last the websocket close. -/
def cleanupOrder : List CleanupAction :=
  [.cancelAnimationFrame, .cancelEagerTimer, .cancelSilenceTimer,
   .disconnectProcessor, .closeAudioContext, .stopMediaTracks, .closeWebSocket]

/-- The sequence of resource actions cleanup performs from state `s`: the
blocks whose guards hold, in source order. -/
def cleanupActions (s : Session) : List CleanupAction :=
  cleanupOrder.filter (cleanupEnabled s)

/-- Rank of a cleanup action in the fixed order the source releases
resources: timer cancellations first (0-2), then outbound audio teardown
(3-4), then microphone release (5), then transport close (6). -/
def actionRank : CleanupAction → Nat
  | .cancelAnimationFrame => 0
  | .cancelEagerTimer => 1
  | .cancelSilenceTimer => 2
  | .disconnectProcessor => 3
  | .closeAudioContext => 4
  | .stopMediaTracks => 5
  | .closeWebSocket => 6

/-- A fully populated listening session (every resource held, both timers
pending): `connectedSession` with an eager confirmation timer also
pending. -/
def fullSession : Session :=
  { connectedSession with eagerEndTimeout := some "hold on" }

/-- Outcome of the external Gemini call made by the check-wait-intent route
(src/unnamed/part_000, lines 48-57), with the text extraction abstracted:
`throw` when `generateContent` rejected (caught at line 66); otherwise
`respond m` where `m` is the result of matching the first-to-last-brace
regex against the response text and JSON-parsing the match — `none` when
there is no match or the parse threw (caught at line 58), `some b` when it
parsed to an object. -/
inductive GeminiOutcome
  | throw
  | respond (jsonMatch : Option GateBody)
deriving DecidableEq, Repr

/-- An HTTP response of the check-wait-intent route, reduced to what its
JSON body and status convey: a 200 carrying an `isWaitIntent` boolean, or
an error status with a message. (The guard response at part_000 line 10
also carries a legacy `shouldWait: false` field, which no caller reads.) -/
inductive WaitRouteResult
  | ok (isWaitIntent : Bool)
  | err (status : Nat) (message : String)
deriving DecidableEq, Repr

/-- POST /api/check-wait-intent (src/unnamed/part_000, lines 4-73).
`transcriptField` is the request body's transcript field (`none` when
absent), `hasKey` whether GOOGLE_GENAI_API_KEY is configured, `gemini` the
outcome of the external model call. Returns the response together with
whether the model was invoked at all. The guard on line 8
(`!transcript || !transcript.trim()`) answers 200 with
`isWaitIntent: false` before touching the key or the model; line 56
computes `parsed.isWaitIntent === true`; a thrown model call reaches the
outer catch (500, line 68). -/
def checkWaitIntentRoute (transcriptField : Option String) (hasKey : Bool)
    (gemini : GeminiOutcome) : WaitRouteResult × Bool :=
  match transcriptField with
  | none => (.ok false, false)
  | some t =>
      if isBlank t then (.ok false, false)
      else if !hasKey then
        (.err 500 "Google GenAI API key not configured", false)
      else
        match gemini with
        | .throw => (.err 500 "Internal server error", true)
        | .respond none => (.ok false, true)
        | .respond (some b) =>
            (.ok (match b.isWaitIntent with
                  | some (.bool true) => true
                  | _ => false), true)

/-- At most one gate call is in flight, and the in-flight flag tracks it:
when `isCheckingWaitIntentRef` is clear, no gate fetch is outstanding from
either call site, and the two call sites never have fetches outstanding
simultaneously. -/
def gateInFlightInv (s : Session) : Prop :=
  (s.pendingEagerGate = none ∨ s.pendingEndGate = none) ∧
  (s.isCheckingWaitIntent = false →
    s.pendingEagerGate = none ∧ s.pendingEndGate = none)

/-- A successful gate response that parsed and denies wait intent. -/
def gateNoWait : FetchOutcome :=
  .response true (some { isWaitIntent := some (.bool false) })

/-- Trigger sequence on which the code hands two transcripts to the
finalizer in a single listening phase: an EagerEndOfTurn whose confirmation
timer fires and issues a slow gate call; a definitive EndOfTurn arriving
while that call is outstanding, whose own checkWaitIntent is rejected by
the in-flight guard and therefore resolves immediately to false, so the
EndOfTurn transcript is finalized (first finalizer call); the finalizer
call completes, clearing the in-flight flag; then the stale eager gate call
resolves as "not wait" and its continuation — which never re-checks whether
it was superseded — finalizes the stale eager candidate (second finalizer
call). -/
def doubleFinalizeTrace : List Trigger :=
  [.turnInfo .eagerEndOfTurn "hold on",
   .eagerTimerFires,
   .turnInfo .endOfTurn "hold on one sec",
   .finalizerCompletes,
   .eagerGateResolves gateNoWait]

/-- Trigger sequence in which a superseding TurnResumed arrives while the
eager gate call is outstanding: the EagerEndOfTurn confirmation timer fires
and issues the gate call; TurnResumed then arrives (its clearTimeout on the
already-fired timer is a no-op); the gate call resolves "not wait" and its
continuation finalizes anyway. -/
def supersededGateTrace : List Trigger :=
  [.turnInfo .eagerEndOfTurn "hold on",
   .eagerTimerFires,
   .turnInfo .turnResumed "hold on let me think",
   .eagerGateResolves gateNoWait]

/-- A session whose eager-path gate call is outstanding, as after an
EagerEndOfTurn and its confirmation timer firing on `connectedSession`. -/
def eagerGatePendingSession : Session :=
  { connectedSession with
    liveTranscript := "hold on"
    isCheckingWaitIntent := true
    pendingEagerGate := some "hold on"
    gateCalls := ["hold on"] }

/-- A session whose EndOfTurn-path gate call is outstanding. -/
def endGatePendingSession : Session :=
  { connectedSession with
    liveTranscript := "hold on"
    isCheckingWaitIntent := true
    pendingEndGate := some "hold on"
    gateCalls := ["hold on"] }

/-- The session of the spec's definitive-finalization scenario, just before
its EndOfTurn event: a StartOfTurn followed by an Update carrying a partial
transcript. -/
def scenarioSession : Session :=
  runTrace connectedSession
    [.turnInfo .startOfTurn "", .turnInfo .update "how do I check"]

/-- C1. The spec claims the finalizer boundary call is invoked at most once
per listening phase. On `doubleFinalizeTrace` — an eager candidate whose
gate call is still in flight when the definitive EndOfTurn finalizes, with
the gate resolving only after that finalizer call completed — the code
hands BOTH the EndOfTurn transcript and the stale eager candidate to the
finalizer: two finalizer invocations in one listening phase. The
`isProcessingRef` guard only prevents overlap while a finalizer call is in
flight, and the resumed eager continuation never re-checks that it was
superseded. -/
theorem finalizer_invoked_twice_in_one_phase :
    (runTrace connectedSession doubleFinalizeTrace).finalized =
      ["hold on one sec", "hold on"] := by
  decide

/-- C2, counterexample. The claim says a superseding event arriving while a
gate call is outstanding is re-checked before the resolved result acts, and
that the superseded result produces no finalize and no state change. On
`supersededGateTrace`, TurnResumed arrives while the eager gate call is
outstanding, yet when the call resolves "not wait" its continuation still
finalizes the stale candidate and moves the session to `processing`. -/
theorem superseded_gate_result_still_finalizes :
    (runTrace connectedSession supersededGateTrace).finalized = ["hold on"] ∧
    (runTrace connectedSession supersededGateTrace).connectionState =
      .processing := by
  decide

/-- C2, amended. The supersession condition (non-empty captured transcript,
websocket ref still set) is checked only BEFORE the gate call is issued:
when it fails at fire time the timer callback does nothing at all. A
superseding TurnResumed or StartOfTurn does not cancel or invalidate an
already outstanding gate call: the pending resolution survives both. -/
theorem eager_supersession_checked_before_gate_call (s s2 : Session)
    (t rt st : String) (h : t = "" ∨ s.websocket = false)
    (h2 : s2.pendingEagerGate = some t) :
    fireEagerTimer t s = s ∧
    (handleTurnInfo .turnResumed rt s2).pendingEagerGate = some t ∧
    (handleTurnInfo .startOfTurn st s2).pendingEagerGate = some t := by
  refine ⟨?_, ?_, ?_⟩
  · unfold fireEagerTimer
    rcases h with rfl | h
    · simp
    · simp [h]
  · unfold handleTurnInfo resetSilenceTimer
    split <;> simpa using h2
  · unfold handleTurnInfo resetSilenceTimer
    split <;> simpa using h2

/-- Witness for the amended C2 at concrete inputs: after cleanup the
websocket is closed, so a later eager timer firing does nothing; and a
TurnResumed, as well as a StartOfTurn, leaves an outstanding eager gate
call pending. -/
theorem eager_supersession_checked_before_gate_call_witness :
    fireEagerTimer "hold on" (cleanup connectedSession) =
      cleanup connectedSession ∧
    (handleTurnInfo .turnResumed "more words"
        eagerGatePendingSession).pendingEagerGate = some "hold on" ∧
    (handleTurnInfo .startOfTurn "fresh start"
        eagerGatePendingSession).pendingEagerGate = some "hold on" :=
  eager_supersession_checked_before_gate_call (cleanup connectedSession)
    eagerGatePendingSession "hold on" "more words" "fresh start"
    (Or.inr rfl) rfl

/-- C9, counterexample. The claim says teardown signals the transport close
before releasing the microphone. In cleanup's actual sequence the
microphone tracks are stopped (part_004, lines 97-100) before the websocket
is closed (lines 102-109). -/
theorem cleanup_releases_mic_before_transport_close :
    cleanupActions fullSession = cleanupOrder ∧
    (cleanupActions fullSession).indexOf CleanupAction.stopMediaTracks <
      (cleanupActions fullSession).indexOf CleanupAction.closeWebSocket := by
  decide

/-- C9, amended. Cleanup releases resources in a fixed order, namely:
cancel pending timers (animation frame, eager-end confirmation, watchdog),
then stop outbound audio processing (disconnect the processor, close the
audio context), then release the microphone stream, and last signal the
transport close. Formally, the action sequence of cleanup, from any state,
is strictly increasing in that rank. -/
theorem cleanup_actions_follow_fixed_order (s : Session) :
    (cleanupActions s).Pairwise (fun a b => actionRank a < actionRank b) :=
  List.Pairwise.sublist (List.filter_sublist _) (by decide)

/-- C4. When the watchdog timer fires (possible only while it is pending;
every qualifying event rearms it via resetSilenceTimer, which replaces the
pending timer), the session is fully torn down and moves to
`disconnected`: the websocket, audio pipeline and microphone are released,
no transcript — whatever `liveTranscript` holds — is handed to the
finalizer, and the extended-wait flag is cleared. Moreover the only
deadlines resetSilenceTimer ever arms are the short 7000 ms and the
extended 20000 ms. -/
theorem watchdog_fires_teardown_no_finalize (s : Session) (d : Nat)
    (h : s.silenceTimeout = some d) :
    (∃ s1, step s .silenceTimerFires = some s1 ∧
      s1.connectionState = .disconnected ∧
      s1.finalized = s.finalized ∧
      s1.gateCalls = s.gateCalls ∧
      s1.websocket = false ∧ s1.processor = false ∧
      s1.audioContext = false ∧ s1.mediaStream = false ∧
      s1.silenceTimeout = none ∧ s1.eagerEndTimeout = none ∧
      s1.isExtendedWait = false) ∧
    (∀ b : Bool, (resetSilenceTimer b s).silenceTimeout =
      some (if b then EXTENDED_SILENCE_DELAY_MS else SILENCE_PROMPT_DELAY_MS)) := by
  constructor
  · refine ⟨{ cleanup s with connectionState := .disconnected, isExtendedWait := false },
      ?_, rfl, rfl, rfl, rfl, rfl, rfl, rfl, rfl, rfl, rfl⟩
    simp [step, h]
  · intro b; rfl

/-- Witness for C4: the watchdog firing on the freshly connected session,
whose short 7000 ms deadline is pending. -/
theorem watchdog_fires_teardown_no_finalize_witness :
    (∃ s1, step connectedSession .silenceTimerFires = some s1 ∧
      s1.connectionState = .disconnected ∧
      s1.finalized = connectedSession.finalized ∧
      s1.gateCalls = connectedSession.gateCalls ∧
      s1.websocket = false ∧ s1.processor = false ∧
      s1.audioContext = false ∧ s1.mediaStream = false ∧
      s1.silenceTimeout = none ∧ s1.eagerEndTimeout = none ∧
      s1.isExtendedWait = false) ∧
    (∀ b : Bool, (resetSilenceTimer b connectedSession).silenceTimeout =
      some (if b then EXTENDED_SILENCE_DELAY_MS else SILENCE_PROMPT_DELAY_MS)) :=
  watchdog_fires_teardown_no_finalize connectedSession
    SILENCE_PROMPT_DELAY_MS rfl

/-- C10. A request to the check-wait-intent endpoint whose transcript field
is missing, empty, or whitespace-only gets HTTP 200 with
`isWaitIntent: false`, and the language model is not invoked, regardless of
key configuration or what the model would have answered. -/
theorem blank_transcript_route_returns_false_without_model
    (tf : Option String) (hasKey : Bool) (g : GeminiOutcome)
    (h : tf = none ∨ ∃ t, tf = some t ∧ isBlank t = true) :
    checkWaitIntentRoute tf hasKey g = (.ok false, false) := by
  rcases h with rfl | ⟨t, rfl, ht⟩
  · rfl
  · simp [checkWaitIntentRoute, ht]

/-- Witness for C10: a whitespace-only transcript, with a key configured
and a model that would throw, still yields 200/false without a model
call. -/
theorem blank_transcript_route_witness :
    checkWaitIntentRoute (some "   ") true .throw = (.ok false, false) :=
  blank_transcript_route_returns_false_without_model (some "   ") true .throw
    (Or.inr ⟨"   ", rfl, by decide⟩)

/-- C5. A "wait" gate decision, at the eager finalization point (the
resolution selected by `p = true`) or the definitive one (`p = false`),
clears the displayed live transcript, sets the extended-wait flag, rearms
the watchdog at the 20000 ms extended deadline, hands nothing to the
finalizer and issues no further gate call, and leaves the session in the
connected state. -/
theorem wait_decision_extends_without_finalize (s : Session) (t : String)
    (r : FetchOutcome)
    (hconn : s.connectionState = .connected)
    (hr : gateDecision r = true) :
    (s.pendingEagerGate = some t →
      ∃ s1, step s (.eagerGateResolves r) = some s1 ∧
        s1.liveTranscript = "" ∧ s1.isExtendedWait = true ∧
        s1.silenceTimeout = some EXTENDED_SILENCE_DELAY_MS ∧
        s1.finalized = s.finalized ∧ s1.gateCalls = s.gateCalls ∧
        s1.connectionState = .connected) ∧
    (s.pendingEndGate = some t →
      ∃ s1, step s (.endGateResolves r) = some s1 ∧
        s1.liveTranscript = "" ∧ s1.isExtendedWait = true ∧
        s1.silenceTimeout = some EXTENDED_SILENCE_DELAY_MS ∧
        s1.finalized = s.finalized ∧ s1.gateCalls = s.gateCalls ∧
        s1.connectionState = .connected) := by
  constructor
  · intro hp
    refine ⟨resetSilenceTimer true
        { s with
          isCheckingWaitIntent := false
          pendingEagerGate := none
          isExtendedWait := true
          liveTranscript := "" },
      ?_, rfl, rfl, rfl, rfl, rfl, hconn⟩
    simp [step, hp, hr, gateContinuation]
  · intro hp
    refine ⟨resetSilenceTimer true
        { s with
          isCheckingWaitIntent := false
          pendingEndGate := none
          isExtendedWait := true
          liveTranscript := "" },
      ?_, rfl, rfl, rfl, rfl, rfl, hconn⟩
    simp [step, hp, hr, gateContinuation]

/-- Witness for C5 at the eager finalization point: a session with an
outstanding eager gate call whose response affirms wait intent. -/
theorem wait_decision_extends_witness :
    ∃ s1, step eagerGatePendingSession
        (.eagerGateResolves (.response true (some { isWaitIntent := some (.bool true) }))) =
        some s1 ∧
      s1.liveTranscript = "" ∧ s1.isExtendedWait = true ∧
      s1.silenceTimeout = some EXTENDED_SILENCE_DELAY_MS ∧
      s1.finalized = eagerGatePendingSession.finalized ∧
      s1.gateCalls = eagerGatePendingSession.gateCalls ∧
      s1.connectionState = .connected :=
  (wait_decision_extends_without_finalize eagerGatePendingSession
    "hold on" (.response true (some { isWaitIntent := some (.bool true) }))
    rfl rfl).1 rfl

/-- C6. A definitive EndOfTurn carrying a non-blank transcript, on a
listening session with no gate call in flight and no finalizer call in
flight, issues exactly one gate call on that transcript; when the gate
answers "not wait", the session is torn down, moves to `processing`, and
exactly that transcript — the one present at the EndOfTurn event — is
appended to the finalizer history, exactly once. -/
theorem endOfTurn_notWait_finalizes_exact_transcript (s : Session)
    (t : String) (r : FetchOutcome)
    (hconn : s.connectionState = .connected) (hws : s.websocket = true)
    (hchk : s.isCheckingWaitIntent = false) (hproc : s.isProcessing = false)
    (ht : isBlank t = false) (hr : gateDecision r = false) :
    s.connectionState = .connected ∧
    ∃ s1 s2, step s (.turnInfo .endOfTurn t) = some s1 ∧
      s1.pendingEndGate = some t ∧
      s1.gateCalls = s.gateCalls ++ [t] ∧
      s1.finalized = s.finalized ∧
      step s1 (.endGateResolves r) = some s2 ∧
      s2.connectionState = .processing ∧
      s2.finalized = s.finalized ++ [t] ∧
      s2.isProcessing = true ∧
      s2.websocket = false ∧ s2.mediaStream = false := by
  have ht0 : t ≠ "" := by
    rintro rfl
    simp [isBlank] at ht
  refine ⟨hconn,
    { s with
      liveTranscript := t
      eagerEndTimeout := none
      isCheckingWaitIntent := true
      pendingEndGate := some t
      gateCalls := s.gateCalls ++ [t] },
    { s with
      liveTranscript := t
      eagerEndTimeout := none
      isCheckingWaitIntent := false
      pendingEndGate := none
      gateCalls := s.gateCalls ++ [t]
      animationFrame := false
      silenceTimeout := none
      processor := false
      audioContext := false
      mediaStream := false
      websocket := false
      isSpeaking := false
      isExtendedWait := false
      isProcessing := true
      connectionState := .processing
      finalized := s.finalized ++ [t] },
    ?_, rfl, rfl, rfl, ?_, rfl, rfl, rfl, rfl, rfl⟩
  · simp [step, handleTurnInfo, hws, ht0, ht, hchk]
  · simp [step, gateContinuation, processTranscript, cleanup, hr, ht, hproc]

/-- Witness for C6: the spec's scenario — StartOfTurn, then
Update("how do I check"), then EndOfTurn with the full question and a gate
response denying wait intent. -/
theorem endOfTurn_notWait_witness :
    scenarioSession.connectionState = .connected ∧
    ∃ s1 s2, step scenarioSession
        (.turnInfo .endOfTurn "how do I check my transfer status") = some s1 ∧
      s1.pendingEndGate = some "how do I check my transfer status" ∧
      s1.gateCalls = scenarioSession.gateCalls ++
        ["how do I check my transfer status"] ∧
      s1.finalized = scenarioSession.finalized ∧
      step s1 (.endGateResolves gateNoWait) = some s2 ∧
      s2.connectionState = .processing ∧
      s2.finalized = scenarioSession.finalized ++
        ["how do I check my transfer status"] ∧
      s2.isProcessing = true ∧
      s2.websocket = false ∧ s2.mediaStream = false :=
  endOfTurn_notWait_finalizes_exact_transcript scenarioSession
    "how do I check my transfer status" gateNoWait
    (by decide) (by decide) (by decide) (by decide) (by decide) (by decide)

/-- C7. The gate client resolves to the boolean `false` on every failure
mode: a rejected fetch (transport failure), a non-OK HTTP response
(whatever its body), an unparseable body, and a parsed body whose
`isWaitIntent` field is anything but the boolean `true`. It never throws or
blocks: `checkWaitIntent` is a total function into booleans, so the caller
always receives a decision. -/
theorem gate_client_fails_safe_to_false (flag : Bool) (t : String) :
    (checkWaitIntent flag t .failure).1 = false ∧
    (∀ body, (checkWaitIntent flag t (.response false body)).1 = false) ∧
    (checkWaitIntent flag t (.response true none)).1 = false ∧
    (∀ b : GateBody, b.isWaitIntent ≠ some (.bool true) →
      (checkWaitIntent flag t (.response true (some b))).1 = false) := by
  refine ⟨?_, ?_, ?_, ?_⟩
  · unfold checkWaitIntent
    split <;> simp [gateDecision]
  · intro body
    unfold checkWaitIntent
    split <;> simp [gateDecision]
  · unfold checkWaitIntent
    split <;> simp [gateDecision]
  · intro b hb
    obtain ⟨w⟩ := b
    unfold checkWaitIntent
    split
    · rfl
    · show gateDecision (FetchOutcome.response true (some ⟨w⟩)) = false
      rcases w with _ | p
      · rfl
      · rcases p with b' | s' | n' | _
        · cases b'
          · rfl
          · exact absurd rfl hb
        · rfl
        · rfl
        · rfl

/-- Witness for C7: concrete failing outcomes — transport failure, a 500
with a parseable body, a 200 whose body did not parse, and a 200 whose
`isWaitIntent` is the string "yes" — all yield `false`. -/
theorem gate_client_fails_safe_witness :
    (checkWaitIntent false "hold on" .failure).1 = false ∧
    (checkWaitIntent false "hold on"
      (.response false (some { isWaitIntent := some (.bool true) }))).1 = false ∧
    (checkWaitIntent false "hold on" (.response true none)).1 = false ∧
    (checkWaitIntent false "hold on"
      (.response true (some { isWaitIntent := some (.str "yes") }))).1 = false :=
  ⟨(gate_client_fails_safe_to_false false "hold on").1,
   (gate_client_fails_safe_to_false false "hold on").2.1
     (some { isWaitIntent := some (.bool true) }),
   (gate_client_fails_safe_to_false false "hold on").2.2.1,
   (gate_client_fails_safe_to_false false "hold on").2.2.2
     { isWaitIntent := some (.str "yes") } (by decide)⟩

/-- An Update event only refreshes the displayed transcript and the
watchdog timer (part_004, lines 351-356): a run of Update events leaves
every other field of the session unchanged. -/
lemma runTrace_updates (mids : List String) (s : Session)
    (hws : s.websocket = true) :
    ∃ lt st, runTrace s (mids.map (Trigger.turnInfo .update)) =
      { s with liveTranscript := lt, silenceTimeout := st } := by
  induction mids generalizing s with
  | nil => exact ⟨s.liveTranscript, s.silenceTimeout, rfl⟩
  | cons m ms ih =>
      have hrw : runTrace s ((m :: ms).map (Trigger.turnInfo .update)) =
          runTrace ((step s (.turnInfo .update m)).getD s)
            (ms.map (Trigger.turnInfo .update)) := rfl
      rw [hrw]
      by_cases hm : m = ""
      · subst hm
        have hstep : (step s (.turnInfo .update "")).getD s = s := by
          simp [step, hws, handleTurnInfo]
        rw [hstep]
        exact ih s hws
      · have hstep : (step s (.turnInfo .update m)).getD s =
            { s with
              liveTranscript := m
              silenceTimeout := some SILENCE_PROMPT_DELAY_MS } := by
          simp [step, hws, handleTurnInfo, resetSilenceTimer, hm]
        rw [hstep]
        obtain ⟨lt, st, hres⟩ := ih
          { s with
            liveTranscript := m
            silenceTimeout := some SILENCE_PROMPT_DELAY_MS } hws
        exact ⟨lt, st, hres⟩

/-- C3. An EagerEndOfTurn on a listening session with no eager timer
pending, followed — possibly after further Update events — by a TurnResumed
before the 800 ms confirmation timer fires: TurnResumed cancels the
confirmation timer, so no gate call and no finalizer call ever happens for
that eager candidate (the gate and finalizer histories are unchanged, and
no eager timer or gate call remains pending that could act on it later),
and the session remains in the connected state. -/
theorem eager_then_resumed_no_gate_no_finalize (s : Session) (t rt : String)
    (mids : List String)
    (hws : s.websocket = true) (hconn : s.connectionState = .connected)
    (href : s.eagerEndTimeout = none) (hleak : s.eagerEndLeaked = []) :
    ∃ sf, runTrace s ([Trigger.turnInfo .eagerEndOfTurn t] ++
        mids.map (Trigger.turnInfo .update) ++
        [Trigger.turnInfo .turnResumed rt]) = sf ∧
      sf.gateCalls = s.gateCalls ∧ sf.finalized = s.finalized ∧
      sf.connectionState = .connected ∧ sf.eagerEndTimeout = none ∧
      sf.eagerEndLeaked = [] ∧ sf.pendingEagerGate = s.pendingEagerGate ∧
      sf.pendingEndGate = s.pendingEndGate := by
  have hsplit : runTrace s ([Trigger.turnInfo .eagerEndOfTurn t] ++
        mids.map (Trigger.turnInfo .update) ++
        [Trigger.turnInfo .turnResumed rt]) =
      runTrace (runTrace (runTrace s [Trigger.turnInfo .eagerEndOfTurn t])
        (mids.map (Trigger.turnInfo .update)))
        [Trigger.turnInfo .turnResumed rt] := by
    simp [runTrace, List.foldl_append]
  have h1 : ∃ lt0, runTrace s [Trigger.turnInfo .eagerEndOfTurn t] =
      { s with liveTranscript := lt0, eagerEndTimeout := some t } := by
    by_cases hm : t = ""
    · subst hm
      refine ⟨s.liveTranscript, ?_⟩
      show (step s (.turnInfo .eagerEndOfTurn "")).getD s = _
      simp [step, hws, handleTurnInfo, href, hleak]
    · refine ⟨t, ?_⟩
      show (step s (.turnInfo .eagerEndOfTurn t)).getD s = _
      simp [step, hws, handleTurnInfo, href, hleak, hm]
  obtain ⟨lt0, h1⟩ := h1
  obtain ⟨lt1, st1, h2⟩ := runTrace_updates mids
    { s with liveTranscript := lt0, eagerEndTimeout := some t } hws
  have h3 : ∃ lt2, runTrace
      { s with
        liveTranscript := lt1
        silenceTimeout := st1
        eagerEndTimeout := some t }
      [Trigger.turnInfo .turnResumed rt] =
      { s with
        liveTranscript := lt2
        silenceTimeout := some SILENCE_PROMPT_DELAY_MS
        eagerEndTimeout := none
        isSpeaking := true } := by
    by_cases hm : rt = ""
    · subst hm
      refine ⟨lt1, ?_⟩
      show (step _ (.turnInfo .turnResumed "")).getD _ = _
      simp [step, handleTurnInfo, resetSilenceTimer, hws]
    · refine ⟨rt, ?_⟩
      show (step _ (.turnInfo .turnResumed rt)).getD _ = _
      simp [step, handleTurnInfo, resetSilenceTimer, hws, hm]
  obtain ⟨lt2, h3⟩ := h3
  refine ⟨{ s with
      liveTranscript := lt2
      silenceTimeout := some SILENCE_PROMPT_DELAY_MS
      eagerEndTimeout := none
      isSpeaking := true },
    ?_, rfl, rfl, hconn, rfl, hleak, rfl, rfl⟩
  rw [hsplit, h1, h2]
  exact h3

/-- Witness for C3: on the freshly connected session, an eager candidate
"hold on", one further update, and a TurnResumed; nothing reaches the gate
or the finalizer and the session stays connected with no timer left for the
candidate. -/
theorem eager_then_resumed_witness :
    ∃ sf, runTrace connectedSession
        ([Trigger.turnInfo .eagerEndOfTurn "hold on"] ++
          ["hold on let"].map (Trigger.turnInfo .update) ++
          [Trigger.turnInfo .turnResumed "hold on let me think"]) = sf ∧
      sf.gateCalls = connectedSession.gateCalls ∧
      sf.finalized = connectedSession.finalized ∧
      sf.connectionState = .connected ∧ sf.eagerEndTimeout = none ∧
      sf.eagerEndLeaked = [] ∧
      sf.pendingEagerGate = connectedSession.pendingEagerGate ∧
      sf.pendingEndGate = connectedSession.pendingEndGate :=
  eager_then_resumed_no_gate_no_finalize connectedSession "hold on"
    "hold on let me think" ["hold on let"] rfl rfl rfl rfl

/-- Both branches of the gate-resolution continuation leave the gate
bookkeeping fields (the in-flight flag and the two pending-call slots)
untouched. -/
lemma gateInv_gateContinuation (t : String) (w : Bool) (s : Session)
    (h : gateInFlightInv s) : gateInFlightInv (gateContinuation t w s) := by
  unfold gateContinuation processTranscript
  split
  · exact h
  · split
    · exact h
    · exact h

/-- Firing an eager confirmation timer preserves the at-most-one-gate-call
invariant: it issues a gate call only when the in-flight flag is clear, in
which case no call was outstanding. -/
lemma gateInv_fireEagerTimer (t : String) (s : Session)
    (h : gateInFlightInv s) : gateInFlightInv (fireEagerTimer t s) := by
  unfold fireEagerTimer
  split
  · split
    · exact gateInv_gateContinuation t false s h
    · rename_i hguard
      have hchk : s.isCheckingWaitIntent = false := by
        cases hc : s.isCheckingWaitIntent
        · rfl
        · exact absurd (Or.inr hc) hguard
      exact ⟨Or.inr ((h.2 hchk).2), fun hf => by simp at hf⟩
  · exact h

/-- Every TurnInfo reaction preserves the at-most-one-gate-call invariant:
the only case issuing a gate call is the definitive EndOfTurn, and it does
so only when the in-flight flag is clear. -/
lemma gateInv_handleTurnInfo (ev : TurnEventKind) (t : String) (s : Session)
    (h : gateInFlightInv s) : gateInFlightInv (handleTurnInfo ev t s) := by
  unfold handleTurnInfo
  cases ev with
  | startOfTurn => dsimp only; split_ifs <;> exact h
  | update => dsimp only; split_ifs <;> exact h
  | eagerEndOfTurn => dsimp only; split_ifs <;> exact h
  | turnResumed => dsimp only; split_ifs <;> exact h
  | endOfTurn =>
      dsimp only
      split_ifs with h1 h2
      · exact gateInv_gateContinuation _ _ _ h
      · have hchk : s.isCheckingWaitIntent = false := by
          cases hc : s.isCheckingWaitIntent
          · rfl
          · exact absurd (Or.inr hc) h2
        exact ⟨Or.inl ((h.2 hchk).1), fun hf => by simp at hf⟩
      · exact h

/-- One reaction to any trigger preserves the at-most-one-gate-call
invariant. -/
lemma gateInv_step (s : Session) (τ : Trigger) (h : gateInFlightInv s) :
    gateInFlightInv ((step s τ).getD s) := by
  cases τ with
  | turnInfo ev t =>
      by_cases hws : s.websocket = true
      · have hstep : (step s (.turnInfo ev t)).getD s = handleTurnInfo ev t s := by
          simp [step, hws]
        rw [hstep]
        exact gateInv_handleTurnInfo ev t s h
      · have hstep : (step s (.turnInfo ev t)).getD s = s := by
          simp [step, hws]
        rw [hstep]; exact h
  | wsFatal d =>
      by_cases hws : s.websocket = true
      · have hstep : (step s (.wsFatal d)).getD s =
            { cleanup s with connectionState := .disconnected } := by
          simp [step, hws]
        rw [hstep]; exact h
      · have hstep : (step s (.wsFatal d)).getD s = s := by
          simp [step, hws]
        rw [hstep]; exact h
  | eagerTimerFires =>
      cases ht : s.eagerEndTimeout with
      | none =>
          have hstep : (step s .eagerTimerFires).getD s = s := by
            simp [step, ht]
          rw [hstep]; exact h
      | some t =>
          have hstep : (step s .eagerTimerFires).getD s =
              fireEagerTimer t { s with eagerEndTimeout := none } := by
            simp [step, ht]
          rw [hstep]
          exact gateInv_fireEagerTimer t _ h
  | leakedEagerTimerFires i =>
      cases hl : s.eagerEndLeaked[i]? with
      | none =>
          have hstep : (step s (.leakedEagerTimerFires i)).getD s = s := by
            simp [step, hl]
          rw [hstep]; exact h
      | some t =>
          have hstep : (step s (.leakedEagerTimerFires i)).getD s =
              fireEagerTimer t
                { s with eagerEndLeaked := s.eagerEndLeaked.eraseIdx i } := by
            simp [step, hl]
          rw [hstep]
          exact gateInv_fireEagerTimer t _ h
  | silenceTimerFires =>
      cases ht : s.silenceTimeout with
      | none =>
          have hstep : (step s .silenceTimerFires).getD s = s := by
            simp [step, ht]
          rw [hstep]; exact h
      | some d =>
          have hstep : (step s .silenceTimerFires).getD s =
              { cleanup s with
                connectionState := .disconnected
                isExtendedWait := false } := by
            simp [step, ht]
          rw [hstep]; exact h
  | eagerGateResolves r =>
      cases hp : s.pendingEagerGate with
      | none =>
          have hstep : (step s (.eagerGateResolves r)).getD s = s := by
            simp [step, hp]
          rw [hstep]; exact h
      | some t =>
          have hstep : (step s (.eagerGateResolves r)).getD s =
              gateContinuation t (gateDecision r)
                { s with
                  isCheckingWaitIntent := false
                  pendingEagerGate := none } := by
            simp [step, hp]
          rw [hstep]
          apply gateInv_gateContinuation
          have hend : s.pendingEndGate = none := by
            rcases h.1 with h1 | h1
            · rw [hp] at h1; exact Option.noConfusion h1
            · exact h1
          exact ⟨Or.inl rfl, fun _ => ⟨rfl, hend⟩⟩
  | endGateResolves r =>
      cases hp : s.pendingEndGate with
      | none =>
          have hstep : (step s (.endGateResolves r)).getD s = s := by
            simp [step, hp]
          rw [hstep]; exact h
      | some t =>
          have hstep : (step s (.endGateResolves r)).getD s =
              gateContinuation t (gateDecision r)
                { s with
                  isCheckingWaitIntent := false
                  pendingEndGate := none } := by
            simp [step, hp]
          rw [hstep]
          apply gateInv_gateContinuation
          have heag : s.pendingEagerGate = none := by
            rcases h.1 with h1 | h1
            · exact h1
            · rw [hp] at h1; exact Option.noConfusion h1
          exact ⟨Or.inr rfl, fun _ => ⟨heag, rfl⟩⟩
  | finalizerCompletes =>
      by_cases hp : s.isProcessing = true
      · have hstep : (step s .finalizerCompletes).getD s =
            { s with isProcessing := false } := by
          simp [step, hp]
        rw [hstep]; exact h
      · have hstep : (step s .finalizerCompletes).getD s = s := by
          simp [step, hp]
        rw [hstep]; exact h
  | stopClicked =>
      by_cases hc : s.connectionState = .connected
      · have hstep : (step s .stopClicked).getD s =
            (if isBlank s.liveTranscript then
              { cleanup s with connectionState := .disconnected }
            else processTranscript s.liveTranscript (cleanup s)) := by
          simp [step, hc]
        rw [hstep]
        split
        · exact h
        · unfold processTranscript
          split
          · exact h
          · exact h
      · have hstep : (step s .stopClicked).getD s = s := by
          simp [step, hc]
        rw [hstep]; exact h

/-- The at-most-one-gate-call invariant holds along any trigger
sequence. -/
lemma gateInv_runTrace (tr : List Trigger) (s : Session)
    (h : gateInFlightInv s) : gateInFlightInv (runTrace s tr) := by
  induction tr generalizing s with
  | nil => exact h
  | cons τ tr ih => exact ih ((step s τ).getD s) (gateInv_step s τ h)

/-- C8. Along every trigger sequence from the start of a listening phase,
at most one gate call is in flight at a time: the in-flight flag tracks the
outstanding call and the two call sites never have calls outstanding
simultaneously. Moreover an invocation of checkWaitIntent while a previous
call has not resolved issues no request and resolves immediately to
`false`, rather than being queued behind the in-flight call. -/
theorem at_most_one_gate_call_in_flight (tr : List Trigger) (t : String)
    (r : FetchOutcome) :
    gateInFlightInv (runTrace connectedSession tr) ∧
    checkWaitIntent true t r = (false, false) := by
  constructor
  · exact gateInv_runTrace tr connectedSession
      ⟨Or.inl rfl, fun _ => ⟨rfl, rfl⟩⟩
  · unfold checkWaitIntent
    rw [if_pos (Or.inr rfl)]

/-- Witness for C8: the invariant after a concrete reaction sequence, and a
concrete overlapping checkWaitIntent invocation resolving to `false`
without a request. -/
theorem at_most_one_gate_call_in_flight_witness :
    gateInFlightInv (runTrace connectedSession
      [.turnInfo .eagerEndOfTurn "hold on", .eagerTimerFires]) ∧
    checkWaitIntent true "hold on" .failure = (false, false) :=
  at_most_one_gate_call_in_flight
    [.turnInfo .eagerEndOfTurn "hold on", .eagerTimerFires] "hold on" .failure

end VoiceAgent
